import Mathlib

/-!
Verification of the tiered-memory / context-pipeline code of the
`adk_long_term` repository.  Each definition below is a shallow embedding of
one Python function of the repository (file and symbol named in its doc
comment); theorems at the end of the file settle the specification claims
against these definitions.
-/

set_option maxHeartbeats 1000000
set_option maxRecDepth 4000

/-- Value universe for the dynamically-typed Python data the code passes
around (JSON-like: `None`, booleans, ints, floats, strings, lists, dicts). -/
inductive PyVal where
  | none : PyVal
  | bool : Bool → PyVal
  | int : Int → PyVal
  | float : Float → PyVal
  | str : String → PyVal
  | list : List PyVal → PyVal
  | dict : List (String × PyVal) → PyVal

/-- A Python dict with string keys, as an association list (insertion order,
first binding wins on lookup, as in the repository's use of plain dicts). -/
abbrev PyDict := List (String × PyVal)

/-- Python `d.get(k)`: `some v` when the key is present, `Option.none` when
absent (Python returns `None`; call sites that distinguish a stored `None`
from an absent key do so explicitly below). -/
def dictGet (d : PyDict) (k : String) : Option PyVal :=
  (d.find? (fun p => p.1 == k)).map Prod.snd

/-- Python `d.get(k, default)`. -/
def dictGetD (d : PyDict) (k : String) (default : PyVal) : PyVal :=
  (dictGet d k).getD default

/-- Python `d.get(k, [])` at call sites that consume the value as a list
(`.get("messages", [])`, `.get("steps") or []`).  An absent key, `None` or
an empty value yields `[]`; a truthy non-list value (which would make the
Python consumer raise or behave ad hoc) does not occur in this repository
and is mapped to `[]`. -/
def dictGetList (d : PyDict) (k : String) : List PyVal :=
  match dictGet d k with
  | Option.some (PyVal.list ms) => ms
  | _ => []

/-- Python truthiness of a value (`if x:`): `None`, `False`, `0`, `""`,
`[]`, and the empty dict are falsy; everything else is truthy. -/
def pyTruthy : PyVal → Bool
  | PyVal.none => false
  | PyVal.bool b => b
  | PyVal.int n => n != 0
  | PyVal.float f => !(f == 0.0)
  | PyVal.str s => !s.isEmpty
  | PyVal.list xs => !xs.isEmpty
  | PyVal.dict fs => !fs.isEmpty

/-- Python `xs[:n]` for a non-negative `n`. -/
def pyTake (n : Nat) (xs : List α) : List α := xs.take n

/-- Python `xs[-n:]` for a non-negative `n`: the last `n` elements, except
that `xs[-0:]` is the whole list (Python treats `-0` as `0`). -/
def pySliceLast (n : Nat) (xs : List α) : List α :=
  if n = 0 then xs else xs.drop (xs.length - n)

/-- Python `xs[:-n]` for a non-negative `n`: everything except the last `n`
elements, except that `xs[:-0]` is the empty list. -/
def pyDropLast (n : Nat) (xs : List α) : List α :=
  if n = 0 then [] else xs.take (xs.length - n)

/-- Python `s.strip()`: remove leading and trailing whitespace. -/
def pyStrip (s : String) : String :=
  ⟨((s.data.dropWhile Char.isWhitespace).reverse.dropWhile Char.isWhitespace).reverse⟩

/-- Python `s[:n]` on a string, for a non-negative `n`. -/
def strTake (n : Nat) (s : String) : String := ⟨s.data.take n⟩

/-- Python `s[-n:]` on a string, for a non-negative `n` (with the same
`-0` caveat as `pySliceLast`). -/
def strTakeLast (n : Nat) (s : String) : String :=
  if n = 0 then s else ⟨s.data.drop (s.data.length - n)⟩

mutual
/-- Python `repr(v)` for the JSON-like values above.  String escaping inside
`repr` of a string is elided (no repository claim inspects escaped output). -/
def pyRepr : PyVal → String
  | PyVal.none => "None"
  | PyVal.bool true => "True"
  | PyVal.bool false => "False"
  | PyVal.int n => toString n
  | PyVal.float f => toString f
  | PyVal.str s => "\x27" ++ s ++ "\x27"
  | PyVal.list xs => "[" ++ pyReprItems xs ++ "]"
  | PyVal.dict fs => "\x7b" ++ pyReprFields fs ++ "\x7d"

/-- Comma-separated `repr` of list items. -/
def pyReprItems : List PyVal → String
  | [] => ""
  | [v] => pyRepr v
  | v :: rest => pyRepr v ++ ", " ++ pyReprItems rest

/-- Comma-separated `repr` of dict entries. -/
def pyReprFields : List (String × PyVal) → String
  | [] => ""
  | [(k, v)] => "\x27" ++ k ++ "\x27: " ++ pyRepr v
  | (k, v) :: rest => "\x27" ++ k ++ "\x27: " ++ pyRepr v ++ ", " ++ pyReprFields rest
end

/-- Python `str(v)`: the string itself for strings, `repr`-style otherwise. -/
def pyStr : PyVal → String
  | PyVal.str s => s
  | v => pyRepr v

mutual
/-- Python `json.dumps(v)` (with `default=str` for non-JSON values; string
escaping elided, as above). -/
def jsonDumps : PyVal → String
  | PyVal.none => "null"
  | PyVal.bool true => "true"
  | PyVal.bool false => "false"
  | PyVal.int n => toString n
  | PyVal.float f => toString f
  | PyVal.str s => "\"" ++ s ++ "\""
  | PyVal.list xs => "[" ++ jsonDumpsItems xs ++ "]"
  | PyVal.dict fs => "\x7b" ++ jsonDumpsFields fs ++ "\x7d"

/-- Comma-separated JSON of list items. -/
def jsonDumpsItems : List PyVal → String
  | [] => ""
  | [v] => jsonDumps v
  | v :: rest => jsonDumps v ++ ", " ++ jsonDumpsItems rest

/-- Comma-separated JSON of dict entries. -/
def jsonDumpsFields : List (String × PyVal) → String
  | [] => ""
  | [(k, v)] => "\"" ++ k ++ "\": " ++ jsonDumps v
  | (k, v) :: rest => "\"" ++ k ++ "\": " ++ jsonDumps v ++ ", " ++ jsonDumpsFields rest
end

/-- Embeds `apply_context_compaction` (src/agent_context/compaction.py,
lines 6-19): truncate each part to `max_chars_per_part`, join with a blank
line; when the join exceeds `max_total_chars`, either head-truncate to
`max_total_chars` (when `max_total_chars - 100 ≤ 0`) or keep the tail
`max_total_chars - 100` characters. -/
def apply_context_compaction (context_parts : List String)
    (max_chars_per_part max_total_chars : Nat) : String :=
  let truncated := context_parts.map (strTake max_chars_per_part)
  let joined := String.intercalate "\n\n" truncated
  if joined.length ≤ max_total_chars then joined
  else
    let target : Int := (max_total_chars : Int) - 100
    if target ≤ 0 then strTake max_total_chars joined
    else if joined.length > target.toNat then strTakeLast target.toNat joined
    else joined

/-- Python `float(v)` for the numeric values that can appear as relevance
scores (`float()` on non-numeric values raises in Python; no reachable
item carries a non-numeric score, see `_mem0_result_to_item`). -/
def pyFloat : PyVal → Float
  | PyVal.int n => Float.ofInt n
  | PyVal.float f => f
  | PyVal.bool true => 1.0
  | _ => 0.0

/-- Embeds `apply_context_filter` (src/agent_context/filter.py, lines 8-24):
cap long-term items, optionally drop items whose `score` is absent, `None`
or below the threshold, cap procedures, keep the most recent short-term
messages. -/
def apply_context_filter (long_term procedures : List PyDict)
    (short_term_messages : List PyVal) (long_term_max : Nat)
    (long_term_min_score : Option Float) (procedure_max short_term_recent_n : Nat) :
    List PyDict × List PyDict × List PyVal :=
  let lt := long_term.take long_term_max
  let lt := match long_term_min_score with
    | Option.none => lt
    | Option.some m =>
        lt.filter fun h =>
          match dictGet h "score" with
          | Option.some PyVal.none => false
          | Option.some v => decide (m ≤ pyFloat v)
          | Option.none => false
  (lt, procedures.take procedure_max, pySliceLast short_term_recent_n short_term_messages)

/-- Embeds `_mem0_result_to_item` (src/app/memory/long_term/store.py, lines
93-108): normalize one mem0 search result into the flat history-item dict.
Non-dict results fall back to `getattr(item, "__dict__", \x7b\x7d) or \x7b\x7d`,
modelled as the empty dict. -/
def _mem0_result_to_item (item : PyVal) : PyDict :=
  let d : PyDict := match item with
    | PyVal.dict fs => fs
    | _ => []
  let meta : PyDict := match dictGet d "metadata" with
    | Option.some (PyVal.dict m) => m
    | _ => []
  [ ("id", PyVal.str (pyStr (dictGetD d "id" (PyVal.str "")))),
    ("memory", PyVal.str (pyStr (dictGetD d "memory" (PyVal.str "")))),
    ("metadata", PyVal.dict meta),
    ("intent_history", dictGetD meta "intent_history" (PyVal.list [])),
    ("messages", dictGetD meta "messages" (PyVal.list [])),
    ("created_at", dictGetD d "created_at" PyVal.none),
    ("updated_at", dictGetD d "updated_at" PyVal.none) ]

/-- Embeds `format_procedures_for_context` (src/agent_context/format.py,
lines 8-21): one block per procedure with name, optional description and
numbered steps, blocks joined by a blank line. -/
def format_procedures_for_context (procedures : List PyDict) : String :=
  let block := fun (p : PyDict) =>
    let name := match dictGet p "name" with
      | Option.some v => if pyTruthy v then v else PyVal.str "unnamed"
      | Option.none => PyVal.str "unnamed"
    let desc := match dictGet p "description" with
      | Option.some v => if pyTruthy v then v else PyVal.str ""
      | Option.none => PyVal.str ""
    let steps : List PyVal := dictGetList p "steps"
    let b := "- Procedure: " ++ pyStr name
    let b := if pyTruthy desc then b ++ "\n  Description: " ++ pyStr desc else b
    let b := if !steps.isEmpty then
        b ++ "\n  Steps:\n" ++ String.intercalate "\n"
          (steps.enum.map fun is => "    " ++ toString (is.1 + 1) ++ ". " ++ pyStr is.2)
      else b
    b
  String.intercalate "\n\n" (procedures.map block)

/-- Embeds the `ContextConfig` dataclass (src/agent_context/config.py) with
its default values. -/
structure ContextConfig where
  offload_enabled : Bool := true
  offload_message_threshold : Nat := 12
  offload_keep_recent : Nat := 5
  filter_enabled : Bool := true
  long_term_max_items : Nat := 5
  long_term_min_score : Option Float := Option.none
  procedure_max_items : Nat := 10
  short_term_recent_n : Nat := 3
  cache_enabled : Bool := true
  cache_ttl_seconds : Nat := 60
  compaction_enabled : Bool := true
  compaction_max_chars_per_part : Nat := 2800
  compaction_max_total_chars : Nat := 9000

/-- State of a working `ContextCache` (src/agent_context/cache.py): a key →
JSON-value map.  Values survive for the TTL window; expiry and backend
failures (which by contract degrade to a silent miss / no-op) are not
modelled because the claims quantify over calls within the TTL window with
a working cache.  The JSON dump/load round trip on values is the identity
for the JSON-shaped values stored here. -/
structure CacheState where
  entries : List (String × List PyDict)

/-- Embeds `ContextCache._key` (src/agent_context/cache.py, lines 37-38). -/
def cache_key (pre : String) (parts : List String) : String :=
  "ctx:" ++ pre ++ ":" ++ String.intercalate ":" parts

/-- Embeds `ContextCache.get` for a working cache. -/
def cache_get (c : CacheState) (pre : String) (parts : List String) :
    Option (List PyDict) :=
  (c.entries.find? (fun e => e.1 == cache_key pre parts)).map Prod.snd

/-- Embeds `ContextCache.set` for a working cache (`setex` overwrites). -/
def cache_set (c : CacheState) (pre : String) (parts : List String)
    (v : List PyDict) : CacheState :=
  ⟨(cache_key pre parts, v) :: c.entries.filter (fun e => e.1 != cache_key pre parts)⟩

/-- Environment a `ContextPipeline.build` call runs against: the memory
facade's read operations and the cache's message-hash function.
`list_procedures_ok = false` models `list_procedures` raising (the pipeline
catches it).  `message_hash` abstracts `ContextCache.message_hash`, the
sha256-based fingerprint (a fixed pure function of the message). -/
structure PipelineEnv where
  get_short_term : String → Option PyDict
  get_relevant_history : String → String → Nat → List PyDict
  list_procedures_ok : Bool
  list_procedures : String → Nat → List PyDict
  message_hash : String → String

/-- Observable side effects of one `build` call. -/
inductive PEvt where
  | searchLT (user_id query : String) (limit : Nat)
  | cacheWrite (key : String) (value : List PyDict)
  | listProc (user_id : String) (limit : Nat)

/-- Embeds the long-term-history resolution step of `ContextPipeline.build`
(src/agent_context/pipeline.py, lines 53-64): check the cache under
`("lt", user_id, msg_hash)`; on a miss or an empty cached value
(`if not long_term`), fetch via `get_relevant_history` and write the fetch
result to the cache whenever a cache and a non-empty fingerprint are
present. -/
def resolveLongTerm (env : PipelineEnv) (config : ContextConfig)
    (cache : Option CacheState) (user_id message : String) :
    List PyDict × Option CacheState × List PEvt :=
  let msg_hash := match cache with
    | Option.some _ => env.message_hash message
    | Option.none => ""
  let cached : Option (List PyDict) := match cache with
    | Option.some c => if msg_hash ≠ "" then cache_get c "lt" [user_id, msg_hash]
                       else Option.none
    | Option.none => Option.none
  let long_term := match cached with
    | Option.some v => v
    | Option.none => []
  if long_term.isEmpty then
    let fetched := env.get_relevant_history user_id message config.long_term_max_items
    let ev := PEvt.searchLT user_id message config.long_term_max_items
    match cache with
    | Option.some c =>
        if msg_hash ≠ "" then
          (fetched, Option.some (cache_set c "lt" [user_id, msg_hash] fetched),
           [ev, PEvt.cacheWrite (cache_key "lt" [user_id, msg_hash]) fetched])
        else (fetched, cache, [ev])
    | Option.none => (fetched, cache, [ev])
  else (long_term, cache, [])

/-- Embeds the procedures resolution step of `ContextPipeline.build`
(src/agent_context/pipeline.py, lines 66-81): check the cache under
`("proc", user_id)`; on a miss or empty cached value, call
`list_procedures` and cache the result only when it is non-empty; any
exception in the block yields an empty procedure list. -/
def resolveProcedures (env : PipelineEnv) (config : ContextConfig)
    (cache : Option CacheState) (user_id : String) :
    List PyDict × Option CacheState × List PEvt :=
  let cached : Option (List PyDict) := match cache with
    | Option.some c => cache_get c "proc" [user_id]
    | Option.none => Option.none
  let procedures := match cached with
    | Option.some v => v
    | Option.none => []
  if procedures.isEmpty then
    let ev := PEvt.listProc user_id config.procedure_max_items
    if env.list_procedures_ok then
      let ps := env.list_procedures user_id config.procedure_max_items
      match cache with
      | Option.some c =>
          if !ps.isEmpty then
            (ps, Option.some (cache_set c "proc" [user_id] ps),
             [ev, PEvt.cacheWrite (cache_key "proc" [user_id]) ps])
          else (ps, cache, [ev])
      | Option.none => (ps, cache, [ev])
    else ([], cache, [ev])
  else (procedures, cache, [])

/-- Result record of `ContextPipeline.build` (src/agent_context/pipeline.py,
lines 19-26). -/
structure BuildResult where
  user_message : String
  short_term : Option PyDict
  long_term : List PyDict
  procedures : List PyDict

/-- Embeds `ContextPipeline.build` (src/agent_context/pipeline.py, lines
45-118): retrieve short-term, long-term (cached) and procedures (cached),
apply the filter when enabled, assemble the context parts and compact them
when enabled.  Returns the build result, the cache state after the call and
the trace of observable effects. -/
def ContextPipeline.build (env : PipelineEnv) (config : ContextConfig)
    (cache : Option CacheState) (user_id session_id message : String) :
    BuildResult × Option CacheState × List PEvt :=
  let short_term := env.get_short_term session_id
  let short_term_messages : List PyVal := match short_term with
    | Option.some d => dictGetList d "messages"
    | Option.none => []
  let rlt := resolveLongTerm env config cache user_id message
  let long_term := rlt.1
  let rproc := resolveProcedures env config rlt.2.1 user_id
  let procedures := rproc.1
  let cacheOut := rproc.2.1
  let trace := rlt.2.2 ++ rproc.2.2
  let fps := if config.filter_enabled then
      apply_context_filter long_term procedures short_term_messages
        config.long_term_max_items config.long_term_min_score
        config.procedure_max_items config.short_term_recent_n
    else (long_term, procedures, short_term_messages)
  let lt := fps.1
  let proc := fps.2.1
  let st := fps.2.2
  let context_parts : List String :=
    (if !st.isEmpty then ["[Recent context] " ++ jsonDumps (PyVal.list st)] else [])
    ++ (if !lt.isEmpty then
          ["[Relevant history] " ++ jsonDumps (PyVal.list
            ((lt.take config.long_term_max_items).map
              (fun h => dictGetD h "intent_history" (PyVal.list []))))]
        else [])
    ++ (if !proc.isEmpty then
          ["[Saved procedures]\n" ++ format_procedures_for_context proc]
        else [])
  if context_parts.isEmpty then
    (⟨message, short_term, lt, proc⟩, cacheOut, trace)
  else
    let user_message :=
      if config.compaction_enabled then
        apply_context_compaction context_parts config.compaction_max_chars_per_part
          config.compaction_max_total_chars ++ "\n\n[Current user message] " ++ message
      else
        String.intercalate "\n\n" context_parts ++ "\n\n[Current user message] " ++ message
    (⟨user_message, short_term, lt, proc⟩, cacheOut, trace)

/-- Number of `get_relevant_history` invocations recorded in a trace. -/
def searchCount (trace : List PEvt) : Nat :=
  trace.countP fun e => match e with
    | PEvt.searchLT _ _ _ => true
    | _ => false

/-- Whether a trace contains a cache write under the given key with the
given value. -/
def hasCacheWrite (trace : List PEvt) (key : String) (value : List PyDict) : Prop :=
  PEvt.cacheWrite key value ∈ trace

/-- Embeds `_content_to_string` (src/app/memory/long_term/store.py, lines
52-60): normalize message content to a string for the mem0 projection. -/
def _content_to_string : PyVal → String
  | PyVal.none => ""
  | PyVal.str s => s
  | PyVal.dict fs => jsonDumps (PyVal.dict fs)
  | v => pyStr v

/-- Outcomes of the two backends `LongTermMemory.save` touches:
whether the lazy MongoDB connection comes up, whether the MongoDB insert
succeeds and whether the mem0 init+add succeeds. -/
structure LTEnv where
  mongo_connect_ok : Bool
  mongo_insert_ok : Bool
  mem0_ok : Bool

/-- Observable backend effects of one `LongTermMemory.save` call: the
attempted MongoDB insert and the attempted mem0 add, each tagged with its
outcome. -/
inductive LTEvent where
  | mongoInsert (ok : Bool) (doc : PyDict)
  | mem0Add (ok : Bool) (messages : List (PyVal × String)) (user_id : String)

/-- Embeds the mem0 message projection inside `LongTermMemory.save`
(src/app/memory/long_term/store.py, lines 284-288): keep only dict messages
whose `role` is present and not `None`, with content normalized to a
string. -/
def messages_for_mem0 (messages : List PyVal) : List (PyVal × String) :=
  messages.filterMap fun m => match m with
    | PyVal.dict fs => match dictGet fs "role" with
        | Option.some PyVal.none => Option.none
        | Option.some r =>
            Option.some (r, _content_to_string (dictGetD fs "content" PyVal.none))
        | Option.none => Option.none
    | _ => Option.none

/-- Embeds `LongTermMemory.save` (src/app/memory/long_term/store.py, lines
198-321).  `now` stands for `_now_iso()` and `newId` for the generated
uuid.  Empty `messages` is a no-op.  The MongoDB write is attempted first;
a connect or insert failure raises (`LongTermMemoryError`, here the error
message) with no mem0 write.  The mem0 write is attempted only after a
successful insert, only when the projected message list is non-empty, and
its failure is swallowed. -/
def LongTermMemory.save (env : LTEnv) (user_id session_id : String)
    (messages : List PyVal) (metadata : Option PyDict)
    (extracted_entities user_preferences : Option PyVal)
    (intent_history : Option PyVal) (now newId : String) :
    Except String Unit × List LTEvent :=
  if messages.isEmpty then (Except.ok (), [])
  else
    let meta := metadata.getD []
    let pick := fun (arg : Option PyVal) (key : String) =>
      match arg with
      | Option.some v => if pyTruthy v then v else dictGetD meta key (PyVal.dict [])
      | Option.none => dictGetD meta key (PyVal.dict [])
    let ee := pick extracted_entities "extracted_entities"
    let up := pick user_preferences "user_preferences"
    let ih := match intent_history with
      | Option.some v => v
      | Option.none => dictGetD meta "intent_history" (PyVal.list [])
    if !env.mongo_connect_ok then
      (Except.error "MongoDB not available", [])
    else
      let doc : PyDict :=
        [ ("_id", PyVal.str newId), ("user_id", PyVal.str user_id),
          ("session_id", PyVal.str session_id), ("messages", PyVal.list messages),
          ("extracted_entities", ee), ("user_preferences", up),
          ("intent_history", ih), ("created_at", PyVal.str now) ]
      if !env.mongo_insert_ok then
        (Except.error "Long-term memory: MongoDB write failed or not connected.",
         [LTEvent.mongoInsert false doc])
      else
        let m4 := messages_for_mem0 messages
        if m4.isEmpty then (Except.ok (), [LTEvent.mongoInsert true doc])
        else
          (Except.ok (),
           [LTEvent.mongoInsert true doc, LTEvent.mem0Add env.mem0_ok m4 user_id])

/-- Whether a trace records a successful MongoDB insert. -/
def mongoSucceeded (trace : List LTEvent) : Prop :=
  ∃ doc, LTEvent.mongoInsert true doc ∈ trace

/-- Whether a trace records an attempted mem0 (search-index) write,
successful or not. -/
def mem0Attempted (trace : List LTEvent) : Prop :=
  ∃ ok ms u, LTEvent.mem0Add ok ms u ∈ trace

/-- Embeds `MemoryManager.save_long_term` (src/app/memory/memory_manager.py,
lines 175-235): extract `messages` from the payload, no-op when empty,
otherwise delegate to `LongTermMemory.save`, re-raising its failure as a
`MemoryWriteError`. -/
def MemoryManager.save_long_term (env : LTEnv) (user_id session_id : String)
    (data : PyDict) (now newId : String) : Except String Unit × List LTEvent :=
  let messages : List PyVal := dictGetList data "messages"
  if messages.isEmpty then (Except.ok (), [])
  else
    let r := LongTermMemory.save env user_id session_id messages
      Option.none
      (Option.some (dictGetD data "extracted_entities" (PyVal.dict [])))
      (Option.some (dictGetD data "user_preferences" (PyVal.dict [])))
      (Option.some (dictGetD data "intent_history" (PyVal.list []))) now newId
    match r.1 with
    | Except.ok _ => (Except.ok (), r.2)
    | Except.error _ => (Except.error "Failed to persist conversation.", r.2)

/-- Embeds the `ShortTermMemoryConfig` dataclass
(src/agent_memory/short_term/config.py) fields the save path reads, with
their default values. -/
structure ShortTermMemoryConfig where
  ttl_seconds : Nat := 1800
  max_messages : Nat := 20

/-- The session record `ShortTermMemory.save` serializes to Redis
(src/app/memory/short_term/store.py, lines 99-105). -/
structure STRecord where
  session_id : String
  session_context : PyVal
  messages : List PyVal
  current_conversation_state : PyVal
  updated_at : String

/-- Embeds the payload construction of `ShortTermMemory.save`
(src/app/memory/short_term/store.py, lines 87-110): truncate `messages` to
the last `max_messages` and stamp `updated_at`.  `now` stands for
`_now_iso()`. -/
def ShortTermMemory.saveRecord (config : ShortTermMemoryConfig)
    (session_id : String) (data : PyDict) (now : String) : STRecord :=
  let msgs : List PyVal := dictGetList data "messages"
  { session_id := session_id
    session_context := dictGetD data "session_context" (PyVal.dict [])
    messages := pySliceLast config.max_messages msgs
    current_conversation_state :=
      dictGetD data "current_conversation_state" (PyVal.dict [])
    updated_at := now }

/-- The Redis keyspace of the short-term store, session id → record (each
`save` replaces the record wholesale via `setex`). -/
abbrev STStore := List (String × STRecord)

/-- Embeds the store effect of `ShortTermMemory.save`: write the serialized
record under the session key, replacing any prior value. -/
def ShortTermMemory.save (config : ShortTermMemoryConfig) (store : STStore)
    (session_id : String) (data : PyDict) (now : String) : STStore :=
  (session_id, ShortTermMemory.saveRecord config session_id data now)
    :: store.filter (fun e => e.1 != session_id)

/-- Embeds `ShortTermMemory.get`: the deserialized record, or `none` when
missing/expired. -/
def ShortTermMemory.get (store : STStore) (session_id : String) : Option STRecord :=
  (store.find? (fun e => e.1 == session_id)).map Prod.snd

/-- A stored procedure document (src/app/memory/procedural/store.py, lines
160-170; `doc_id` embeds the Mongo `_id`). -/
structure ProcDoc where
  doc_id : String
  user_id : String
  name : String
  steps : List String
  description : Option String
  conditions : List String
  metadata : PyDict
  created_at : String
  updated_at : String

/-- The procedural MongoDB collection, in insertion order. -/
abbrev ProcStore := List ProcDoc

/-- Updates the first element satisfying the predicate (Mongo `update_one`
touches at most one matching document). -/
def updateFirst (p : α → Bool) (f : α → α) : List α → List α
  | [] => []
  | x :: xs => if p x then f x :: xs else x :: updateFirst p f xs

/-- Whether a stored document matches the upsert filter
`\x7b"user_id": user_id.strip(), "name": name.strip()\x7d`. -/
def procMatches (u n : String) (d : ProcDoc) : Bool :=
  d.user_id == u && d.name == n

/-- Embeds `ProceduralMemory.add_procedure` (src/app/memory/procedural/
store.py, lines 120-219).  Validation: empty (stripped) `user_id` or `name`
raises without touching the store; a MongoDB connection failure raises
next; otherwise `update_one(..., upsert=True)` replaces
steps/description/conditions/metadata/`updated_at` of the first matching
document or inserts a fresh one (`$setOnInsert` keeps `_id`, `user_id`,
`name`, `created_at` only for the insert case), and the id of the stored
document is returned.  `now` stands for `_now_iso()` and `freshId` for the
generated uuid.  Result: the returned id (or the raised error message)
paired with the resulting store. -/
def ProceduralMemory.add_procedure (mongo_ok : Bool) (store : ProcStore)
    (user_id name : String) (steps : List String) (description : Option String)
    (conditions : Option (List String)) (metadata : Option PyDict)
    (now freshId : String) : Except String String × ProcStore :=
  if ((pyStrip user_id).isEmpty || (pyStrip name).isEmpty) then
    (Except.error "user_id and name are required", store)
  else if !mongo_ok then
    (Except.error "MongoDB not available", store)
  else
    let u := pyStrip user_id
    let n := pyStrip name
    let upd := fun (d : ProcDoc) =>
      { d with steps := steps, description := description,
               conditions := conditions.getD [], metadata := metadata.getD [],
               updated_at := now }
    let store' :=
      if (store.find? (procMatches u n)).isSome then
        updateFirst (procMatches u n) upd store
      else
        store ++ [{ doc_id := freshId, user_id := u, name := n, steps := steps,
                    description := description, conditions := conditions.getD [],
                    metadata := metadata.getD [], created_at := now,
                    updated_at := now }]
    let out_id := match store'.find? (procMatches u n) with
      | Option.some d => d.doc_id
      | Option.none => freshId
    (Except.ok out_id, store')

/-- Outcomes of the memory operations `after_turn` issues.  Hard saves
(`short_ok`, `long_ok`) raise on failure; the offload call's only
implementation (`offload_messages`, src/app/memory/offload.py) never raises
by contract ("Does not raise; logs on failure"), so `offload_ok` only tags
the recorded attempt; the best-effort writes are indexed so each pending
procedure (and its cache-invalidation callback) can fail independently. -/
structure PersistEnv where
  offload_ok : Bool
  short_ok : Bool
  long_ok : Bool
  episode_ok : Bool
  fact_ok : Bool
  proc_ok : Nat → Bool
  on_saved_ok : Nat → Bool

/-- Observable memory effects of one `after_turn` call, each tagged with
its outcome. -/
inductive AEvent where
  | offload (ok : Bool) (msgs : List PyVal)
  | saveShortTerm (ok : Bool) (data : PyDict)
  | saveLongTerm (ok : Bool) (data : PyDict)
  | addEpisode (ok : Bool) (content : PyDict)
  | addFact (ok : Bool) (fact : String)
  | addProcedure (ok : Bool) (name steps description : PyVal)
  | onProcedureSaved (ok : Bool) (user_id : String)

/-- Embeds the pending-procedures loop of `after_turn`
(src/agent_context/persist.py, lines 83-96): each upsert and its
`on_procedure_saved` callback run in their own `try`, so a failure in one
iteration never stops the next; the callback only runs after a successful
upsert. -/
def procEvents (env : PersistEnv) (user_id : String) (has_cb : Bool) :
    List PyDict → Nat → List AEvent
  | [], _ => []
  | p :: rest, i =>
      let ev := AEvent.addProcedure (env.proc_ok i)
        (dictGetD p "name" (PyVal.str "unnamed"))
        (dictGetD p "steps" (PyVal.list []))
        (dictGetD p "description" PyVal.none)
      let cb := if env.proc_ok i && has_cb then
          [AEvent.onProcedureSaved (env.on_saved_ok i) user_id]
        else []
      (ev :: cb) ++ procEvents env user_id has_cb rest (i + 1)

/-- Embeds the message extension at the start of `after_turn`
(src/agent_context/persist.py, lines 33-36): the pre-turn short-term
messages extended with the turn's user message and intent-tagged assistant
response. -/
def extendedMessages (short_term_before : Option PyDict) (message : String)
    (response_payload : PyVal) (intent : String) : List PyVal :=
  (match short_term_before with
    | Option.some d => dictGetList d "messages"
    | Option.none => []) ++
  [ PyVal.dict [("role", PyVal.str "user"), ("content", PyVal.str message)],
    PyVal.dict [("role", PyVal.str "assistant"), ("content", response_payload),
                ("intent", PyVal.str intent)] ]

/-- Embeds `after_turn` (src/agent_context/persist.py, lines 15-96): extend
the pre-turn messages with the user/assistant pair; offload all but the
last `offload_keep_recent` when over the threshold, else keep the last 20;
save short-term and long-term (hard, in that order); then best-effort
episode, fact and pending-procedure writes. -/
def after_turn (env : PersistEnv) (config : ContextConfig)
    (user_id _session_id message : String) (short_term_before : Option PyDict)
    (response_payload : PyVal) (intent : String)
    (pending_procedures : List PyDict) (has_on_procedure_saved : Bool) :
    Except String Unit × List AEvent :=
  let new_messages := extendedMessages short_term_before message response_payload intent
  let offPair : List AEvent × List PyVal :=
    if config.offload_enabled
        && decide (config.offload_message_threshold < new_messages.length) then
      let to_offload := pyDropLast config.offload_keep_recent new_messages
      ((if !to_offload.isEmpty then [AEvent.offload env.offload_ok to_offload] else []),
       pySliceLast config.offload_keep_recent new_messages)
    else ([], pySliceLast 20 new_messages)
  let stData : PyDict :=
    [ ("session_context", match short_term_before with
        | Option.some d => dictGetD d "session_context" (PyVal.dict [])
        | Option.none => PyVal.dict []),
      ("messages", PyVal.list offPair.2),
      ("current_conversation_state", PyVal.dict [("last_intent", PyVal.str intent)]) ]
  let evs := offPair.1 ++ [AEvent.saveShortTerm env.short_ok stData]
  if !env.short_ok then (Except.error "Failed to save session context", evs)
  else
    let ltData : PyDict :=
      [ ("messages", PyVal.list
          [ PyVal.dict [("role", PyVal.str "user"), ("content", PyVal.str message)],
            PyVal.dict [("role", PyVal.str "assistant"),
                        ("content", response_payload)] ]),
        ("extracted_entities", PyVal.dict []),
        ("user_preferences", PyVal.dict []),
        ("intent_history", PyVal.list [PyVal.list [PyVal.str message, PyVal.str intent]]) ]
    let evs := evs ++ [AEvent.saveLongTerm env.long_ok ltData]
    if !env.long_ok then (Except.error "Failed to persist conversation", evs)
    else
      let epContent : PyDict :=
        [ ("user_message", PyVal.str (strTake 300 message)),
          ("intent", PyVal.str intent),
          ("response_preview", PyVal.str (strTake 200 (pyStr response_payload))) ]
      let evs := evs ++ [AEvent.addEpisode env.episode_ok epContent]
      let fact := "User asked: " ++ strTake 100 message ++ "; intent was " ++ intent ++ "."
      let evs := evs ++ [AEvent.addFact env.fact_ok fact]
      (Except.ok (),
       evs ++ procEvents env user_id has_on_procedure_saved pending_procedures 0)

/-- All messages archived to the offload store during a trace. -/
def archivedMessages (trace : List AEvent) : List PyVal :=
  (trace.filterMap fun e => match e with
    | AEvent.offload _ ms => Option.some ms
    | _ => Option.none).join

/-- The `messages` payload of each short-term save attempt in a trace. -/
def savedShortTermMessages (trace : List AEvent) : List (List PyVal) :=
  trace.filterMap fun e => match e with
    | AEvent.saveShortTerm _ d => match dictGet d "messages" with
        | Option.some (PyVal.list ms) => Option.some ms
        | _ => Option.none
    | _ => Option.none

/-- Number of episode-append attempts in a trace. -/
def episodeAttempts (trace : List AEvent) : Nat :=
  trace.countP fun e => match e with
    | AEvent.addEpisode _ _ => true
    | _ => false

/-- Number of fact-append attempts in a trace. -/
def factAttempts (trace : List AEvent) : Nat :=
  trace.countP fun e => match e with
    | AEvent.addFact _ _ => true
    | _ => false

/-- Number of procedure-upsert attempts in a trace. -/
def procAttempts (trace : List AEvent) : Nat :=
  trace.countP fun e => match e with
    | AEvent.addProcedure _ _ _ _ => true
    | _ => false

/-! ### Claim theorems -/

/-- Fixed 5000-character context part used by the compaction test vector. -/
def c2part : String := ⟨List.replicate 5000 'a'⟩

/-- The truncated-and-joined form of three such parts under
`max_chars_per_part = 2800`. -/
def c2joined : String :=
  String.intercalate "\n\n" ([c2part, c2part, c2part].map (strTake 2800))

/-- A pre-turn short-term record holding 13 messages, so that the extended
list of the offload test vector has 15 messages. -/
def c6stb : PyDict := [("messages", PyVal.list (List.replicate 13 (PyVal.str "m")))]

/-- An environment in which every memory operation succeeds. -/
def envAllOk : PersistEnv :=
  ⟨true, true, true, true, true, fun _ => true, fun _ => true⟩

/-- An environment in which every best-effort operation fails while the
hard saves succeed. -/
def envBestEffortDown : PersistEnv :=
  ⟨true, true, true, false, false, fun _ => false, fun _ => false⟩

/-- Pipeline environment of the C10 witness: the search returns one
normalized item. -/
def c10env : PipelineEnv :=
  ⟨fun _ => Option.none,
   fun _ _ _ => [_mem0_result_to_item (PyVal.dict
     [("id", PyVal.str "1"), ("memory", PyVal.str "likes tea")])],
   true, fun _ _ => [], fun _ => "h"⟩

/-- Pipeline environment whose long-term search always returns an empty
list (short-term and procedures are empty too; the fingerprint is a fixed
non-empty hash). -/
def c34missEnv : PipelineEnv :=
  ⟨fun _ => Option.none, fun _ _ _ => [], true, fun _ _ => [], fun _ => "h"⟩

/-- Pipeline environment whose long-term search returns one item. -/
def c34hitEnv : PipelineEnv :=
  ⟨fun _ => Option.none, fun _ _ _ => [[("memory", PyVal.str "x")]],
   true, fun _ _ => [], fun _ => "h"⟩

/-- Auxiliary: the character list of the joined C2 test vector. -/
theorem c2joined_data : c2joined.data
    = List.replicate 2800 'a' ++ '\n' :: '\n' ::
      (List.replicate 2800 'a' ++ '\n' :: '\n' :: List.replicate 2800 'a') := by
  rw [c2joined, c2part]
  simp only [List.map_cons, List.map_nil, String.intercalate, String.intercalate.go,
    String.data_append, strTake]
  rw [List.take_replicate]
  norm_num

/-- Auxiliary: the joined C2 test vector has 8404 characters. -/
theorem c2joined_length : c2joined.length = 8404 := by
  show c2joined.data.length = 8404
  rw [c2joined_data]
  simp only [List.length_append, List.length_cons, List.length_replicate]

/-- C2: `apply_context_compaction` truncates each part to its first
`max_chars_per_part` characters, joins the parts with a blank line, returns
the join unchanged when its length is at most `max_total_chars`, and
otherwise (with `target = max_total_chars - 100`) returns the first
`max_total_chars` characters when `target ≤ 0` and the last `target`
characters when `target > 0`; in particular, for 3 parts of 5000 characters
with `max_chars_per_part = 2800` and `max_total_chars = 9000`, the output
has length at most 9000 and equals the tail of the joined truncated
parts. -/
theorem c2_compaction_spec (parts : List String) (mcp mtc : Nat)
    (hp : 0 < mcp) (ht : 0 < mtc) :
    (apply_context_compaction parts mcp mtc =
      (if (String.intercalate "\n\n" (parts.map (strTake mcp))).length ≤ mtc
       then String.intercalate "\n\n" (parts.map (strTake mcp))
       else if mtc ≤ 100
       then strTake mtc (String.intercalate "\n\n" (parts.map (strTake mcp)))
       else strTakeLast (mtc - 100)
              (String.intercalate "\n\n" (parts.map (strTake mcp)))))
    ∧ (apply_context_compaction [c2part, c2part, c2part] 2800 9000).length ≤ 9000
    ∧ apply_context_compaction [c2part, c2part, c2part] 2800 9000
        = strTakeLast 8900 c2joined := by
  have hconc : apply_context_compaction [c2part, c2part, c2part] 2800 9000
      = c2joined := by
    have h9 : c2joined.length ≤ 9000 := by rw [c2joined_length]; norm_num
    show (if c2joined.length ≤ 9000 then c2joined
          else if (9000 : Int) - 100 ≤ 0 then strTake 9000 c2joined
          else if c2joined.length > ((9000 : Int) - 100).toNat
          then strTakeLast ((9000 : Int) - 100).toNat c2joined
          else c2joined) = c2joined
    rw [if_pos h9]
  refine ⟨?_, ?_, ?_⟩
  · set J := String.intercalate "\n\n" (parts.map (strTake mcp)) with hJ
    show (if J.length ≤ mtc then J
          else if (mtc : Int) - 100 ≤ 0 then strTake mtc J
          else if J.length > ((mtc : Int) - 100).toNat
          then strTakeLast ((mtc : Int) - 100).toNat J
          else J) = _
    by_cases h1 : J.length ≤ mtc
    · rw [if_pos h1, if_pos h1]
    · rw [if_neg h1, if_neg h1]
      by_cases h2 : mtc ≤ 100
      · rw [if_pos (show (mtc : Int) - 100 ≤ 0 by omega), if_pos h2]
      · rw [if_neg (show ¬((mtc : Int) - 100 ≤ 0) by omega), if_neg h2]
        have htn : ((mtc : Int) - 100).toNat = mtc - 100 := by omega
        rw [htn, if_pos (show J.length > mtc - 100 by omega)]
  · rw [hconc, c2joined_length]; norm_num
  · rw [hconc]
    show c2joined = strTakeLast 8900 c2joined
    unfold strTakeLast
    rw [if_neg (by norm_num)]
    have hd : c2joined.data.length = 8404 := c2joined_length
    rw [show c2joined.data.length - 8900 = 0 by omega, List.drop_zero]

/-- Witness for C2 at the concrete test vector. -/
theorem c2_compaction_spec_witness :
    (0 : Nat) < 2800 ∧ (0 : Nat) < 9000 ∧
    (apply_context_compaction [c2part, c2part, c2part] 2800 9000).length ≤ 9000 :=
  ⟨by norm_num, by norm_num,
   (c2_compaction_spec [c2part, c2part, c2part] 2800 9000
     (by norm_num) (by norm_num)).2.1⟩

/-- C5: after every `ShortTermMemory.save`, the stored record's messages
list has length at most `max_messages` and consists of the last
`max_messages` entries of the input's messages (the dropped part is a
prefix of the input). -/
theorem c5_short_term_bounded (config : ShortTermMemoryConfig) (store : STStore)
    (session_id : String) (data : PyDict) (now : String)
    (h : 0 < config.max_messages) :
    ∃ rec, ShortTermMemory.get
        (ShortTermMemory.save config store session_id data now) session_id
        = Option.some rec
      ∧ rec.messages.length ≤ config.max_messages
      ∧ dictGetList data "messages"
          = (dictGetList data "messages").take
              ((dictGetList data "messages").length - config.max_messages)
            ++ rec.messages := by
  refine ⟨ShortTermMemory.saveRecord config session_id data now, ?_, ?_, ?_⟩
  · simp [ShortTermMemory.get, ShortTermMemory.save, List.find?]
  · simp [ShortTermMemory.saveRecord, pySliceLast, Nat.pos_iff_ne_zero.mp h]
    omega
  · simp [ShortTermMemory.saveRecord, pySliceLast, Nat.pos_iff_ne_zero.mp h,
      List.take_append_drop]

/-- Witness for C5: a save of three messages with `max_messages = 2`. -/
theorem c5_short_term_bounded_witness :
    0 < (ShortTermMemoryConfig.mk 1800 2).max_messages ∧
    ∃ rec, ShortTermMemory.get
        (ShortTermMemory.save (ShortTermMemoryConfig.mk 1800 2) [] "s1"
          [("messages", PyVal.list [PyVal.int 1, PyVal.int 2, PyVal.int 3])] "t0")
        "s1" = Option.some rec
      ∧ rec.messages.length ≤ (ShortTermMemoryConfig.mk 1800 2).max_messages
      ∧ dictGetList [("messages", PyVal.list [PyVal.int 1, PyVal.int 2, PyVal.int 3])]
          "messages"
          = (dictGetList [("messages", PyVal.list [PyVal.int 1, PyVal.int 2, PyVal.int 3])]
              "messages").take
              ((dictGetList [("messages",
                  PyVal.list [PyVal.int 1, PyVal.int 2, PyVal.int 3])]
                "messages").length - (ShortTermMemoryConfig.mk 1800 2).max_messages)
            ++ rec.messages :=
  ⟨by norm_num,
   c5_short_term_bounded (ShortTermMemoryConfig.mk 1800 2) [] "s1"
     [("messages", PyVal.list [PyVal.int 1, PyVal.int 2, PyVal.int 3])] "t0"
     (by norm_num)⟩

/-- Auxiliary: `archivedMessages` on the empty trace. -/
theorem archivedMessages_nil : archivedMessages [] = [] := rfl

/-- Auxiliary: `archivedMessages` on a cons. -/
theorem archivedMessages_cons (e : AEvent) (t : List AEvent) :
    archivedMessages (e :: t)
      = (match e with | AEvent.offload _ ms => ms | _ => []) ++ archivedMessages t := by
  cases e <;> simp [archivedMessages]

/-- Auxiliary: splitting `archivedMessages` across trace concatenation. -/
theorem archivedMessages_append (a b : List AEvent) :
    archivedMessages (a ++ b) = archivedMessages a ++ archivedMessages b := by
  simp [archivedMessages, List.filterMap_append]

/-- Auxiliary: `savedShortTermMessages` on the empty trace. -/
theorem savedShortTermMessages_nil : savedShortTermMessages [] = [] := rfl

/-- Auxiliary: `savedShortTermMessages` on a cons. -/
theorem savedShortTermMessages_cons (e : AEvent) (t : List AEvent) :
    savedShortTermMessages (e :: t)
      = (match e with
          | AEvent.saveShortTerm _ d =>
            match dictGet d "messages" with
            | Option.some (PyVal.list ms) => [ms]
            | _ => []
          | _ => []) ++ savedShortTermMessages t := by
  cases e with
  | saveShortTerm ok d =>
      show List.filterMap _ _ = _
      rw [List.filterMap_cons]
      cases hd : dictGet d "messages" with
      | none => simp [savedShortTermMessages, hd]
      | some v => cases v <;> simp [savedShortTermMessages, hd]
  | _ => simp [savedShortTermMessages]

/-- Auxiliary: splitting `savedShortTermMessages` across concatenation. -/
theorem savedShortTermMessages_append (a b : List AEvent) :
    savedShortTermMessages (a ++ b)
      = savedShortTermMessages a ++ savedShortTermMessages b := by
  simp [savedShortTermMessages, List.filterMap_append]

/-- Auxiliary: `episodeAttempts` on a cons. -/
theorem episodeAttempts_cons (e : AEvent) (t : List AEvent) :
    episodeAttempts (e :: t)
      = (match e with | AEvent.addEpisode _ _ => 1 | _ => 0) + episodeAttempts t := by
  cases e <;> simp [episodeAttempts, List.countP_cons] <;> omega

/-- Auxiliary: splitting `episodeAttempts` across concatenation. -/
theorem episodeAttempts_append (a b : List AEvent) :
    episodeAttempts (a ++ b) = episodeAttempts a + episodeAttempts b := by
  simp [episodeAttempts, List.countP_append]

/-- Auxiliary: `factAttempts` on a cons. -/
theorem factAttempts_cons (e : AEvent) (t : List AEvent) :
    factAttempts (e :: t)
      = (match e with | AEvent.addFact _ _ => 1 | _ => 0) + factAttempts t := by
  cases e <;> simp [factAttempts, List.countP_cons] <;> omega

/-- Auxiliary: splitting `factAttempts` across concatenation. -/
theorem factAttempts_append (a b : List AEvent) :
    factAttempts (a ++ b) = factAttempts a + factAttempts b := by
  simp [factAttempts, List.countP_append]

/-- Auxiliary: `procAttempts` on a cons. -/
theorem procAttempts_cons (e : AEvent) (t : List AEvent) :
    procAttempts (e :: t)
      = (match e with | AEvent.addProcedure _ _ _ _ => 1 | _ => 0) + procAttempts t := by
  cases e <;> simp [procAttempts, List.countP_cons] <;> omega

/-- Auxiliary: splitting `procAttempts` across concatenation. -/
theorem procAttempts_append (a b : List AEvent) :
    procAttempts (a ++ b) = procAttempts a + procAttempts b := by
  simp [procAttempts, List.countP_append]

/-- Auxiliary: the procedures loop emits no offload events. -/
theorem archivedMessages_procEvents (env : PersistEnv) (u : String) (cb : Bool) :
    ∀ (ps : List PyDict) (i : Nat), archivedMessages (procEvents env u cb ps i) = [] := by
  intro ps
  induction ps with
  | nil => intro i; rfl
  | cons p rest ih =>
      intro i
      by_cases h : (env.proc_ok i && cb) = true <;>
        simp [procEvents, h, archivedMessages_append, archivedMessages_cons,
          archivedMessages_nil, ih (i + 1)]

/-- Auxiliary: the procedures loop emits no short-term saves. -/
theorem savedShortTermMessages_procEvents (env : PersistEnv) (u : String) (cb : Bool) :
    ∀ (ps : List PyDict) (i : Nat),
      savedShortTermMessages (procEvents env u cb ps i) = [] := by
  intro ps
  induction ps with
  | nil => intro i; rfl
  | cons p rest ih =>
      intro i
      by_cases h : (env.proc_ok i && cb) = true <;>
        simp [procEvents, h, savedShortTermMessages_append, savedShortTermMessages_cons,
          savedShortTermMessages_nil, ih (i + 1)]

/-- Auxiliary: the procedures loop emits no episode appends. -/
theorem episodeAttempts_procEvents (env : PersistEnv) (u : String) (cb : Bool) :
    ∀ (ps : List PyDict) (i : Nat), episodeAttempts (procEvents env u cb ps i) = 0 := by
  intro ps
  induction ps with
  | nil => intro i; rfl
  | cons p rest ih =>
      intro i
      by_cases h : (env.proc_ok i && cb) = true <;>
        simp [procEvents, h, episodeAttempts_append, episodeAttempts_cons, ih (i + 1),
          show episodeAttempts [] = 0 from rfl]

/-- Auxiliary: the procedures loop emits no fact appends. -/
theorem factAttempts_procEvents (env : PersistEnv) (u : String) (cb : Bool) :
    ∀ (ps : List PyDict) (i : Nat), factAttempts (procEvents env u cb ps i) = 0 := by
  intro ps
  induction ps with
  | nil => intro i; rfl
  | cons p rest ih =>
      intro i
      by_cases h : (env.proc_ok i && cb) = true <;>
        simp [procEvents, h, factAttempts_append, factAttempts_cons, ih (i + 1),
          show factAttempts [] = 0 from rfl]

/-- Auxiliary: the procedures loop attempts exactly one upsert per pending
procedure. -/
theorem procAttempts_procEvents (env : PersistEnv) (u : String) (cb : Bool) :
    ∀ (ps : List PyDict) (i : Nat), procAttempts (procEvents env u cb ps i) = ps.length := by
  intro ps
  induction ps with
  | nil => intro i; rfl
  | cons p rest ih =>
      intro i
      by_cases h : (env.proc_ok i && cb) = true <;>
        simp [procEvents, h, procAttempts_append, procAttempts_cons, ih (i + 1),
          show procAttempts [] = 0 from rfl] <;>
        omega

/-- Auxiliary: the `messages` entry of the short-term save payload built by
`after_turn`. -/
theorem dictGet_afterTurnPayload (sc : PyVal) (ms : List PyVal) (cs : PyVal) :
    dictGet [("session_context", sc), ("messages", PyVal.list ms),
      ("current_conversation_state", cs)] "messages"
      = Option.some (PyVal.list ms) := rfl

/-- C6: with offloading enabled and the extended message list over the
threshold, `after_turn` archives exactly all messages except the last
`offload_keep_recent` and hands the short-term save exactly those last
`offload_keep_recent` messages; otherwise nothing is archived and the
short-term save receives the last 20 messages of the extended list. -/
theorem c6_offload_spec (env : PersistEnv) (config : ContextConfig)
    (user_id session_id message : String) (short_term_before : Option PyDict)
    (response_payload : PyVal) (intent : String) (pending : List PyDict)
    (has_cb : Bool) (hkeep : 0 < config.offload_keep_recent) :
    (pyDropLast config.offload_keep_recent
        (extendedMessages short_term_before message response_payload intent)
      = (extendedMessages short_term_before message response_payload intent).take
          ((extendedMessages short_term_before message response_payload intent).length
            - config.offload_keep_recent))
    ∧ (pySliceLast config.offload_keep_recent
        (extendedMessages short_term_before message response_payload intent)
      = (extendedMessages short_term_before message response_payload intent).drop
          ((extendedMessages short_term_before message response_payload intent).length
            - config.offload_keep_recent))
    ∧ (config.offload_enabled = true →
      config.offload_message_threshold
          < (extendedMessages short_term_before message response_payload intent).length →
      archivedMessages (after_turn env config user_id session_id message
          short_term_before response_payload intent pending has_cb).2
        = pyDropLast config.offload_keep_recent
            (extendedMessages short_term_before message response_payload intent)
      ∧ savedShortTermMessages (after_turn env config user_id session_id message
          short_term_before response_payload intent pending has_cb).2
        = [pySliceLast config.offload_keep_recent
            (extendedMessages short_term_before message response_payload intent)])
    ∧ ((config.offload_enabled = false ∨
        (extendedMessages short_term_before message response_payload intent).length
          ≤ config.offload_message_threshold) →
      archivedMessages (after_turn env config user_id session_id message
          short_term_before response_payload intent pending has_cb).2 = []
      ∧ savedShortTermMessages (after_turn env config user_id session_id message
          short_term_before response_payload intent pending has_cb).2
        = [(extendedMessages short_term_before message response_payload intent).drop
            ((extendedMessages short_term_before message response_payload intent).length
              - 20)]) := by
  have hkne : config.offload_keep_recent ≠ 0 := Nat.pos_iff_ne_zero.mp hkeep
  refine ⟨by unfold pyDropLast; rw [if_neg hkne],
          by unfold pySliceLast; rw [if_neg hkne], ?_, ?_⟩
  · intro h1 h2
    have hcond : (config.offload_enabled
        && decide (config.offload_message_threshold
          < (extendedMessages short_term_before message response_payload intent).length))
        = true := by
      rw [h1]; simpa using h2
    by_cases h3 : (pyDropLast config.offload_keep_recent
        (extendedMessages short_term_before message response_payload intent)).isEmpty
    · have h4 : pyDropLast config.offload_keep_recent
          (extendedMessages short_term_before message response_payload intent) = [] :=
        List.isEmpty_iff.mp h3
      obtain ⟨ook, sok, lok, eok, fok, pok, cok⟩ := env
      cases sok <;> cases lok <;>
        simp [after_turn, hcond, h3, h4,
          archivedMessages_append, archivedMessages_cons, archivedMessages_nil,
          archivedMessages_procEvents, savedShortTermMessages_append,
          savedShortTermMessages_cons, savedShortTermMessages_nil,
          savedShortTermMessages_procEvents, dictGet_afterTurnPayload]
    · rw [Bool.not_eq_true] at h3
      obtain ⟨ook, sok, lok, eok, fok, pok, cok⟩ := env
      cases sok <;> cases lok <;>
        simp [after_turn, hcond, h3,
          archivedMessages_append, archivedMessages_cons, archivedMessages_nil,
          archivedMessages_procEvents, savedShortTermMessages_append,
          savedShortTermMessages_cons, savedShortTermMessages_nil,
          savedShortTermMessages_procEvents, dictGet_afterTurnPayload]
  · intro h1
    have hcond : (config.offload_enabled
        && decide (config.offload_message_threshold
          < (extendedMessages short_term_before message response_payload intent).length))
        = false := by
      rcases h1 with h1 | h1
      · rw [h1]; rfl
      · simp [Nat.not_lt.mpr h1]
    have hslice20 : pySliceLast 20
        (extendedMessages short_term_before message response_payload intent)
        = (extendedMessages short_term_before message response_payload intent).drop
            ((extendedMessages short_term_before message response_payload intent).length
              - 20) := by
      unfold pySliceLast; rw [if_neg (by norm_num)]
    obtain ⟨ook, sok, lok, eok, fok, pok, cok⟩ := env
    cases sok <;> cases lok <;>
      simp [after_turn, hcond, hslice20,
        archivedMessages_append, archivedMessages_cons, archivedMessages_nil,
        archivedMessages_procEvents, savedShortTermMessages_append,
        savedShortTermMessages_cons, savedShortTermMessages_nil,
        savedShortTermMessages_procEvents, dictGet_afterTurnPayload]

/-- Witness for C6: 15 extended messages, threshold 12, keep 5 — exactly 10
messages archived, exactly 5 saved. -/
theorem c6_offload_spec_witness :
    0 < ({} : ContextConfig).offload_keep_recent
    ∧ ({} : ContextConfig).offload_enabled = true
    ∧ ({} : ContextConfig).offload_message_threshold
        < (extendedMessages (Option.some c6stb) "hello" (PyVal.str "ok") "general").length
    ∧ archivedMessages (after_turn envAllOk {} "u" "s" "hello" (Option.some c6stb)
        (PyVal.str "ok") "general" [] false).2
      = pyDropLast 5 (extendedMessages (Option.some c6stb) "hello" (PyVal.str "ok") "general")
    ∧ savedShortTermMessages (after_turn envAllOk {} "u" "s" "hello" (Option.some c6stb)
        (PyVal.str "ok") "general" [] false).2
      = [pySliceLast 5 (extendedMessages (Option.some c6stb) "hello" (PyVal.str "ok") "general")]
    ∧ (pyDropLast 5 (extendedMessages (Option.some c6stb) "hello"
        (PyVal.str "ok") "general")).length = 10
    ∧ (pySliceLast 5 (extendedMessages (Option.some c6stb) "hello"
        (PyVal.str "ok") "general")).length = 5 := by
  have h := (c6_offload_spec envAllOk {} "u" "s" "hello" (Option.some c6stb)
    (PyVal.str "ok") "general" [] false (by norm_num)).2.2.1
    rfl (by decide)
  exact ⟨by norm_num, rfl, by decide, h.1, h.2, by decide, by decide⟩

/-- C9: whenever `after_turn` completes the short-term and long-term saves,
it returns success and attempts all three best-effort steps — one episode
append, one fact append, and one upsert per pending procedure — no matter
which of those best-effort operations fail. -/
theorem c9_best_effort_isolated (env : PersistEnv) (config : ContextConfig)
    (user_id session_id message : String) (short_term_before : Option PyDict)
    (response_payload : PyVal) (intent : String) (pending : List PyDict)
    (has_cb : Bool) (hs : env.short_ok = true) (hl : env.long_ok = true) :
    (after_turn env config user_id session_id message short_term_before
        response_payload intent pending has_cb).1 = Except.ok ()
    ∧ episodeAttempts (after_turn env config user_id session_id message
        short_term_before response_payload intent pending has_cb).2 = 1
    ∧ factAttempts (after_turn env config user_id session_id message
        short_term_before response_payload intent pending has_cb).2 = 1
    ∧ procAttempts (after_turn env config user_id session_id message
        short_term_before response_payload intent pending has_cb).2 = pending.length := by
  by_cases hcond : (config.offload_enabled
      && decide (config.offload_message_threshold
        < (extendedMessages short_term_before message response_payload intent).length))
      = true
  · by_cases h3 : (pyDropLast config.offload_keep_recent
        (extendedMessages short_term_before message response_payload intent)).isEmpty
    · simp [after_turn, hcond, h3, hs, hl,
        episodeAttempts_append, episodeAttempts_cons,
        factAttempts_append, factAttempts_cons,
        procAttempts_append, procAttempts_cons,
        episodeAttempts_procEvents, factAttempts_procEvents, procAttempts_procEvents,
        show episodeAttempts [] = 0 from rfl, show factAttempts [] = 0 from rfl,
        show procAttempts [] = 0 from rfl]
    · rw [Bool.not_eq_true] at h3
      simp [after_turn, hcond, h3, hs, hl,
        episodeAttempts_append, episodeAttempts_cons,
        factAttempts_append, factAttempts_cons,
        procAttempts_append, procAttempts_cons,
        episodeAttempts_procEvents, factAttempts_procEvents, procAttempts_procEvents,
        show episodeAttempts [] = 0 from rfl, show factAttempts [] = 0 from rfl,
        show procAttempts [] = 0 from rfl]
  · rw [Bool.not_eq_true] at hcond
    simp [after_turn, hcond, hs, hl,
      episodeAttempts_append, episodeAttempts_cons,
      factAttempts_append, factAttempts_cons,
      procAttempts_append, procAttempts_cons,
      episodeAttempts_procEvents, factAttempts_procEvents, procAttempts_procEvents,
      show episodeAttempts [] = 0 from rfl, show factAttempts [] = 0 from rfl,
      show procAttempts [] = 0 from rfl]

/-- Witness for C9: both best-effort singles fail and both pending
procedure upserts fail, yet the call succeeds and every step was
attempted. -/
theorem c9_best_effort_isolated_witness :
    envBestEffortDown.short_ok = true ∧ envBestEffortDown.long_ok = true
    ∧ (after_turn envBestEffortDown {} "u" "s" "hi" Option.none
        (PyVal.str "ok") "general"
        [[("name", PyVal.str "p1")], [("name", PyVal.str "p2")]] true).1
      = Except.ok ()
    ∧ procAttempts (after_turn envBestEffortDown {} "u" "s" "hi" Option.none
        (PyVal.str "ok") "general"
        [[("name", PyVal.str "p1")], [("name", PyVal.str "p2")]] true).2 = 2 := by
  have h := c9_best_effort_isolated envBestEffortDown {} "u" "s" "hi" Option.none
    (PyVal.str "ok") "general"
    [[("name", PyVal.str "p1")], [("name", PyVal.str "p2")]] true rfl rfl
  exact ⟨rfl, rfl, h.1, h.2.2.2⟩

/-- C8: a long-term save whose messages list is empty is a no-op returning
success — no MongoDB record and no mem0 entry — both directly through
`LongTermMemory.save` and through `MemoryManager.save_long_term`. -/
theorem c8_empty_messages_noop :
    (∀ (env : LTEnv) (u s : String) (meta : Option PyDict) (ee up ih : Option PyVal)
       (now newId : String),
       LongTermMemory.save env u s [] meta ee up ih now newId = (Except.ok (), []))
    ∧ (∀ (env : LTEnv) (u s : String) (data : PyDict) (now newId : String),
       dictGetList data "messages" = [] →
       MemoryManager.save_long_term env u s data now newId = (Except.ok (), [])) := by
  constructor
  · intro env u s meta ee up ih now newId
    rfl
  · intro env u s data now newId h
    simp [MemoryManager.save_long_term, h]

/-- Witness for C8 at a concrete empty payload. -/
theorem c8_empty_messages_noop_witness :
    dictGetList [("messages", PyVal.list [])] "messages" = [] ∧
    MemoryManager.save_long_term (LTEnv.mk true true true) "u" "s"
      [("messages", PyVal.list [])] "t0" "id0" = (Except.ok (), []) :=
  ⟨rfl, c8_empty_messages_noop.2 (LTEnv.mk true true true) "u" "s"
    [("messages", PyVal.list [])] "t0" "id0" rfl⟩

/-- Auxiliary: `updateFirst` passes over a prefix with no match. -/
theorem updateFirst_append_none {α : Type} (p : α → Bool) (f : α → α)
    (l1 l2 : List α) (h : ∀ x ∈ l1, p x = false) :
    updateFirst p f (l1 ++ l2) = l1 ++ updateFirst p f l2 := by
  induction l1 with
  | nil => rfl
  | cons a t ih =>
      simp [updateFirst, h a (List.mem_cons_self a t),
        ih (fun x hx => h x (List.mem_cons_of_mem a hx))]

/-- Auxiliary: the store produced by a first `add_procedure` call on a
store with no document for the key. -/
theorem add_procedure_insert (store : ProcStore) (user_id name : String)
    (steps : List String) (d : Option String) (c : Option (List String))
    (m : Option PyDict) (t newId : String)
    (hu : (pyStrip user_id).isEmpty = false) (hn : (pyStrip name).isEmpty = false)
    (hstore : store.find? (procMatches (pyStrip user_id) (pyStrip name))
      = Option.none) :
    ProceduralMemory.add_procedure true store user_id name steps d c m t newId
      = (Except.ok newId, store ++ [ProcDoc.mk newId (pyStrip user_id)
          (pyStrip name) steps d (c.getD []) (m.getD []) t t]) := by
  have hmatch : procMatches (pyStrip user_id) (pyStrip name)
      (ProcDoc.mk newId (pyStrip user_id) (pyStrip name) steps d (c.getD [])
        (m.getD []) t t) = true := by
    simp [procMatches]
  simp [ProceduralMemory.add_procedure, hu, hn, hstore, List.find?_append, hmatch]

/-- Auxiliary: the store produced by a second `add_procedure` call for the
same key, starting from a store whose only match is the last document. -/
theorem add_procedure_update (store : ProcStore) (user_id name : String)
    (doc : ProcDoc) (steps : List String) (d : Option String)
    (c : Option (List String)) (m : Option PyDict) (t newId : String)
    (hu : (pyStrip user_id).isEmpty = false) (hn : (pyStrip name).isEmpty = false)
    (hstore : store.find? (procMatches (pyStrip user_id) (pyStrip name))
      = Option.none)
    (hdoc : procMatches (pyStrip user_id) (pyStrip name) doc = true) :
    ProceduralMemory.add_procedure true (store ++ [doc]) user_id name steps d c m t newId
      = (Except.ok doc.doc_id, store ++
          [{ doc with
              steps := steps
              description := d
              conditions := c.getD []
              metadata := m.getD []
              updated_at := t }]) := by
  have hnomatch : ∀ x ∈ store, procMatches (pyStrip user_id) (pyStrip name) x = false := by
    intro x hx
    exact Bool.eq_false_iff.mpr (List.find?_eq_none.mp hstore x hx)
  have hfind : (store ++ [doc]).find? (procMatches (pyStrip user_id) (pyStrip name))
      = Option.some doc := by
    rw [List.find?_append, hstore]
    simp [hdoc]
  have hmatch2 : procMatches (pyStrip user_id) (pyStrip name)
      { doc with
        steps := steps
        description := d
        conditions := c.getD []
        metadata := m.getD []
        updated_at := t } = true := by
    simp only [procMatches] at hdoc ⊢
    exact hdoc
  have hupd : updateFirst (procMatches (pyStrip user_id) (pyStrip name))
      (fun x => { x with
        steps := steps
        description := d
        conditions := c.getD []
        metadata := m.getD []
        updated_at := t })
      (store ++ [doc])
      = store ++ [{ doc with
          steps := steps
          description := d
          conditions := c.getD []
          metadata := m.getD []
          updated_at := t }] := by
    rw [updateFirst_append_none _ _ _ _ hnomatch]
    simp [updateFirst, hdoc]
  have hfind2 : (store ++ [{ doc with
      steps := steps
      description := d
      conditions := c.getD []
      metadata := m.getD []
      updated_at := t }]).find?
        (procMatches (pyStrip user_id) (pyStrip name))
      = Option.some { doc with
          steps := steps
          description := d
          conditions := c.getD []
          metadata := m.getD []
          updated_at := t } := by
    rw [List.find?_append, hstore]
    simp [hmatch2]
  simp [ProceduralMemory.add_procedure, hu, hn, hfind, hupd, hfind2]

/-- C7: two `add_procedure` calls with the same (non-empty) `user_id` and
`name` and different payloads leave exactly one stored procedure for that
key, carrying the second call's steps/description/conditions while keeping
the first call's `created_at` and id; a call with empty (stripped)
`user_id` or `name` raises a validation error and leaves the store
untouched. -/
theorem c7_add_procedure_upsert (store : ProcStore) (user_id name : String)
    (steps1 steps2 : List String) (d1 d2 : Option String)
    (c1 c2 : Option (List String)) (m1 m2 : Option PyDict) (t1 t2 id1 id2 : String)
    (hu : (pyStrip user_id).isEmpty = false) (hn : (pyStrip name).isEmpty = false)
    (hstore : store.find? (procMatches (pyStrip user_id) (pyStrip name))
      = Option.none) :
    (((ProceduralMemory.add_procedure true
        (ProceduralMemory.add_procedure true store user_id name steps1 d1 c1 m1 t1 id1).2
        user_id name steps2 d2 c2 m2 t2 id2).2.filter
          (procMatches (pyStrip user_id) (pyStrip name))).length = 1
     ∧ (ProceduralMemory.add_procedure true
        (ProceduralMemory.add_procedure true store user_id name steps1 d1 c1 m1 t1 id1).2
        user_id name steps2 d2 c2 m2 t2 id2).2.find?
          (procMatches (pyStrip user_id) (pyStrip name))
        = Option.some (ProcDoc.mk id1 (pyStrip user_id) (pyStrip name) steps2 d2
            (c2.getD []) (m2.getD []) t1 t2)
     ∧ (ProceduralMemory.add_procedure true
        (ProceduralMemory.add_procedure true store user_id name steps1 d1 c1 m1 t1 id1).2
        user_id name steps2 d2 c2 m2 t2 id2).1 = Except.ok id1)
    ∧ (∀ (st : ProcStore) (u n : String) (steps : List String) (d : Option String)
         (c : Option (List String)) (m : Option PyDict) (t i : String),
        ((pyStrip u).isEmpty = true ∨ (pyStrip n).isEmpty = true) →
        ProceduralMemory.add_procedure true st u n steps d c m t i
          = (Except.error "user_id and name are required", st)) := by
  constructor
  · have hmatch1 : procMatches (pyStrip user_id) (pyStrip name)
        (ProcDoc.mk id1 (pyStrip user_id) (pyStrip name) steps1 d1 (c1.getD [])
          (m1.getD []) t1 t1) = true := by
      simp [procMatches]
    have hnomatch : ∀ x ∈ store,
        procMatches (pyStrip user_id) (pyStrip name) x = false := by
      intro x hx
      exact Bool.eq_false_iff.mpr (List.find?_eq_none.mp hstore x hx)
    rw [add_procedure_insert store user_id name steps1 d1 c1 m1 t1 id1 hu hn hstore]
    rw [show (Except.ok id1 (ε := String), store ++ [ProcDoc.mk id1 (pyStrip user_id)
        (pyStrip name) steps1 d1 (c1.getD []) (m1.getD []) t1 t1]).2
      = store ++ [ProcDoc.mk id1 (pyStrip user_id) (pyStrip name) steps1 d1
        (c1.getD []) (m1.getD []) t1 t1] from rfl]
    rw [add_procedure_update store user_id name _ steps2 d2 c2 m2 t2 id2 hu hn
      hstore hmatch1]
    refine ⟨?_, ?_, rfl⟩
    · show ((store ++ [_]).filter (procMatches (pyStrip user_id) (pyStrip name))).length = 1
      rw [List.filter_append, List.filter_eq_nil.mpr
        (fun x hx => by simp [hnomatch x hx])]
      simp [procMatches]
    · show (store ++ [_]).find? (procMatches (pyStrip user_id) (pyStrip name)) = _
      rw [List.find?_append, hstore]
      simp [procMatches]
  · intro st u n steps d c m t i h
    have hcond : ((pyStrip u).isEmpty || (pyStrip n).isEmpty) = true := by
      rcases h with h | h <;> simp [h]
    unfold ProceduralMemory.add_procedure
    rw [if_pos hcond]

/-- Witness for C7: adding `check_weather` twice for `alice` with different
steps from an empty store. -/
theorem c7_add_procedure_upsert_witness :
    ((pyStrip "alice").isEmpty = false) ∧ ((pyStrip "check_weather").isEmpty = false)
    ∧ (([] : ProcStore).find? (procMatches (pyStrip "alice") (pyStrip "check_weather"))
        = Option.none)
    ∧ ((ProceduralMemory.add_procedure true
        (ProceduralMemory.add_procedure true [] "alice" "check_weather"
          ["a"] Option.none Option.none Option.none "t1" "id1").2
        "alice" "check_weather" ["b", "c"] (Option.some "v2") Option.none Option.none
        "t2" "id2").2.filter
          (procMatches (pyStrip "alice") (pyStrip "check_weather"))).length = 1
    ∧ (ProceduralMemory.add_procedure true
        (ProceduralMemory.add_procedure true [] "alice" "check_weather"
          ["a"] Option.none Option.none Option.none "t1" "id1").2
        "alice" "check_weather" ["b", "c"] (Option.some "v2") Option.none Option.none
        "t2" "id2").1 = Except.ok "id1" := by
  have h := c7_add_procedure_upsert [] "alice" "check_weather" ["a"] ["b", "c"]
    Option.none (Option.some "v2") Option.none Option.none Option.none Option.none
    "t1" "t2" "id1" "id2" (by decide) (by decide) rfl
  exact ⟨by decide, by decide, rfl, h.1.1, h.1.2.2⟩

/-- Auxiliary: the normalized mem0 item never carries a `score` field. -/
theorem mem0_item_no_score (item : PyVal) :
    dictGet (_mem0_result_to_item item) "score" = Option.none := rfl

/-- Auxiliary: with a minimum score configured, the filter drops every
long-term item whose `score` is absent. -/
theorem filter_drops_scoreless (lt proc : List PyDict) (st : List PyVal)
    (ltMax pMax rN : Nat) (m : Float)
    (h : ∀ x ∈ lt, dictGet x "score" = Option.none) :
    (apply_context_filter lt proc st ltMax (Option.some m) pMax rN).1 = [] := by
  simp only [apply_context_filter]
  refine List.filter_eq_nil_iff.mpr ?_
  intro x hx
  have := h x (List.take_subset _ _ hx)
  simp [this]

/-- Auxiliary: every item `resolveLongTerm` returns comes from the cached
value or from the fetch. -/
theorem resolveLongTerm_sources (env : PipelineEnv) (config : ContextConfig)
    (cache : Option CacheState) (u msg : String) (P : PyDict → Prop)
    (hf : ∀ x ∈ env.get_relevant_history u msg config.long_term_max_items, P x)
    (hc : ∀ (c : CacheState) (v : List PyDict), cache = Option.some c →
        cache_get c "lt" [u, env.message_hash msg] = Option.some v → ∀ x ∈ v, P x) :
    ∀ x ∈ (resolveLongTerm env config cache u msg).1, P x := by
  intro x hx
  simp only [resolveLongTerm] at hx
  cases cache with
  | none =>
      simp only [List.isEmpty_nil, if_true] at hx
      exact hf x (by simpa using hx)
  | some c =>
      by_cases hh : env.message_hash msg = ""
      · simp [hh] at hx
        exact hf x hx
      · simp only [hh, not_false_eq_true, if_true, ne_eq] at hx
        cases hg : cache_get c "lt" [u, env.message_hash msg] with
        | none =>
            rw [hg] at hx
            simp [hh] at hx
            exact hf x hx
        | some v =>
            rw [hg] at hx
            by_cases hv : v.isEmpty
            · simp [hh, hv] at hx
              exact hf x hx
            · simp [hh, hv] at hx
              exact hc c v rfl hg x hx

/-- Auxiliary: with filtering enabled, the `long_term` of a build result is
the filtered resolved long-term list. -/
theorem build_long_term_eq (env : PipelineEnv) (config : ContextConfig)
    (cache : Option CacheState) (u s msg : String)
    (hfe : config.filter_enabled = true) :
    (ContextPipeline.build env config cache u s msg).1.long_term
      = (apply_context_filter (resolveLongTerm env config cache u msg).1
          (resolveProcedures env config (resolveLongTerm env config cache u msg).2.1 u).1
          (match env.get_short_term s with
            | Option.some d => dictGetList d "messages"
            | Option.none => [])
          config.long_term_max_items config.long_term_min_score
          config.procedure_max_items config.short_term_recent_n).1 := by
  simp only [ContextPipeline.build, hfe, if_true]
  rw [apply_ite (fun r : BuildResult × Option CacheState × List PEvt => r.1.long_term)]
  simp only []
  rw [ite_self]

/-- C10: `apply_context_filter` with a configured minimum score keeps only
items carrying a score and drops every item whose `score` field is absent;
since `_mem0_result_to_item` never emits a `score` field, a build call with
filtering enabled and a minimum score configured ends with an empty
long-term context regardless of what the search returned. -/
theorem c10_min_score_empties_long_term :
    (∀ item : PyVal, dictGet (_mem0_result_to_item item) "score" = Option.none)
    ∧ (∀ (raw : List PyVal) (proc : List PyDict) (st : List PyVal)
         (ltMax pMax rN : Nat) (m : Float),
        (apply_context_filter (raw.map _mem0_result_to_item) proc st ltMax
          (Option.some m) pMax rN).1 = [])
    ∧ (∀ (env : PipelineEnv) (config : ContextConfig) (cache : Option CacheState)
         (u s msg : String) (m : Float),
        config.filter_enabled = true →
        config.long_term_min_score = Option.some m →
        (∀ x ∈ (resolveLongTerm env config cache u msg).1,
          dictGet x "score" = Option.none) →
        (ContextPipeline.build env config cache u s msg).1.long_term = []) := by
  refine ⟨mem0_item_no_score, ?_, ?_⟩
  · intro raw proc st ltMax pMax rN m
    refine filter_drops_scoreless _ _ _ _ _ _ _ ?_
    intro x hx
    obtain ⟨item, _, rfl⟩ := List.mem_map.mp hx
    exact mem0_item_no_score item
  · intro env config cache u s msg m hfe hmin hitems
    rw [build_long_term_eq env config cache u s msg hfe, hmin]
    exact filter_drops_scoreless _ _ _ _ _ _ _ hitems

/-- Witness for C10: with the default config plus `long_term_min_score = 1`,
a cache-less build on a search returning one (score-less) item yields an
empty long-term context. -/
theorem c10_min_score_empties_long_term_witness :
    ({ long_term_min_score := Option.some (1 : Float) } : ContextConfig).filter_enabled
      = true
    ∧ ({ long_term_min_score := Option.some (1 : Float) } : ContextConfig).long_term_min_score
      = Option.some (1 : Float)
    ∧ (ContextPipeline.build c10env
        { long_term_min_score := Option.some (1 : Float) } Option.none
        "u" "s" "tea").1.long_term = [] := by
  refine ⟨rfl, rfl, ?_⟩
  refine c10_min_score_empties_long_term.2.2 c10env _ Option.none "u" "s" "tea" 1
    rfl rfl ?_
  intro x hx
  simp only [resolveLongTerm, List.isEmpty_nil] at hx
  simp only [c10env] at hx
  obtain rfl : x = _mem0_result_to_item (PyVal.dict
      [("id", PyVal.str "1"), ("memory", PyVal.str "likes tea")]) := by
    simpa using hx
  exact mem0_item_no_score _

/-- C1: in every `LongTermMemory.save` call with non-empty messages, the
mem0 (search-index) write is attempted only after the MongoDB write
succeeded; if the durable write fails the call raises and no mem0 write is
attempted; if the durable write succeeds and the mem0 write fails, the
failure is swallowed and the call returns success. -/
theorem c1_save_ordering (env : LTEnv) (user_id session_id : String)
    (messages : List PyVal) (metadata : Option PyDict) (ee up ih : Option PyVal)
    (now newId : String) (h : messages ≠ []) :
    (mem0Attempted (LongTermMemory.save env user_id session_id messages metadata
        ee up ih now newId).2 →
      mongoSucceeded (LongTermMemory.save env user_id session_id messages metadata
        ee up ih now newId).2)
    ∧ ((env.mongo_connect_ok = false ∨ env.mongo_insert_ok = false) →
        (∃ e, (LongTermMemory.save env user_id session_id messages metadata
            ee up ih now newId).1 = Except.error e)
        ∧ ¬ mem0Attempted (LongTermMemory.save env user_id session_id messages
            metadata ee up ih now newId).2)
    ∧ (env.mongo_connect_ok = true → env.mongo_insert_ok = true →
        (LongTermMemory.save env user_id session_id messages metadata
          ee up ih now newId).1 = Except.ok ()) := by
  obtain ⟨mc, mi, m0⟩ := env
  obtain ⟨m, ms, hms⟩ : ∃ m ms, messages = m :: ms := by
    cases messages with
    | nil => exact absurd rfl h
    | cons m ms => exact ⟨m, ms, rfl⟩
  subst hms
  cases mc <;> cases mi <;>
    simp [LongTermMemory.save, mem0Attempted, mongoSucceeded] <;>
    by_cases h4 : (messages_for_mem0 (m :: ms)).isEmpty <;>
    simp [h4]

/-- Witness for C1: a one-message save against healthy backends (and the
hard-failure case is exercised through the quantified environment). -/
theorem c1_save_ordering_witness :
    ([PyVal.dict [("role", PyVal.str "user"), ("content", PyVal.str "hi")]] ≠
      ([] : List PyVal)) ∧
    ((LongTermMemory.save (LTEnv.mk true true false) "u" "s"
        [PyVal.dict [("role", PyVal.str "user"), ("content", PyVal.str "hi")]]
        Option.none Option.none Option.none Option.none "t0" "id0").1
      = Except.ok ()) := by
  refine ⟨by simp, ?_⟩
  exact (c1_save_ordering (LTEnv.mk true true false) "u" "s"
    [PyVal.dict [("role", PyVal.str "user"), ("content", PyVal.str "hi")]]
    Option.none Option.none Option.none Option.none "t0" "id0" (by simp)).2.2
    rfl rfl

/-- Auxiliary: the long-term and procedure cache keys never collide (their
prefixes differ at the fifth character). -/
theorem cache_key_lt_ne_proc (u h u2 : String) :
    cache_key "lt" [u, h] ≠ cache_key "proc" [u2] := by
  intro heq
  have hd := congrArg String.data heq
  simp only [cache_key, String.data_append,
    show "ctx:".data = ['c', 't', 'x', ':'] from rfl,
    show "lt".data = ['l', 't'] from rfl,
    show "proc".data = ['p', 'r', 'o', 'c'] from rfl,
    show ":".data = [':'] from rfl] at hd
  simp at hd

/-- Auxiliary: reading back the key a working cache was just set under. -/
theorem cache_get_cache_set_self (c : CacheState) (pre : String)
    (parts : List String) (v : List PyDict) :
    cache_get (cache_set c pre parts v) pre parts = Option.some v := by
  simp [cache_get, cache_set, List.find?]

/-- Auxiliary: `find?` ignores a filter that keeps everything the search
predicate accepts. -/
theorem find?_filter_of_imp {α : Type} (l : List α) (p q : α → Bool)
    (h : ∀ x, q x = true → p x = true) : (l.filter p).find? q = l.find? q := by
  induction l with
  | nil => rfl
  | cons a t ih =>
      by_cases hq : q a = true
      · simp [List.filter_cons, h a hq, List.find?_cons, hq]
      · by_cases hp : p a = true <;>
          simp [List.filter_cons, hp, List.find?_cons, hq, ih]

/-- Auxiliary: setting one key of a working cache leaves every other key
unchanged. -/
theorem cache_get_cache_set_ne (c : CacheState) (pre1 pre2 : String)
    (parts1 parts2 : List String) (v : List PyDict)
    (hne : cache_key pre2 parts2 ≠ cache_key pre1 parts1) :
    cache_get (cache_set c pre1 parts1 v) pre2 parts2 = cache_get c pre2 parts2 := by
  simp only [cache_get, cache_set]
  rw [List.find?_cons_of_neg]
  · rw [find?_filter_of_imp]
    intro x hx
    have : x.1 = cache_key pre2 parts2 := by
      exact eq_of_beq hx
    rw [bne_iff_ne]
    rw [this]
    exact hne
  · intro hb
    exact hne (eq_of_beq hb).symm

/-- Auxiliary: a cache hit with a non-empty value short-circuits the
long-term resolution — no search, no cache write, cache unchanged. -/
theorem resolveLongTerm_hit (env : PipelineEnv) (config : ContextConfig)
    (c : CacheState) (u msg : String) (v : List PyDict)
    (hh : env.message_hash msg ≠ "")
    (hg : cache_get c "lt" [u, env.message_hash msg] = Option.some v)
    (hv : v ≠ []) :
    resolveLongTerm env config (Option.some c) u msg = (v, Option.some c, []) := by
  have hvf : v.isEmpty = false := by
    cases v with
    | nil => exact absurd rfl hv
    | cons a t => rfl
  simp [resolveLongTerm, hh, hg, hvf]

/-- Auxiliary: a cache miss (or a cached empty list) makes the long-term
resolution fetch and write the fetch result back under the key. -/
theorem resolveLongTerm_miss (env : PipelineEnv) (config : ContextConfig)
    (c : CacheState) (u msg : String)
    (hh : env.message_hash msg ≠ "")
    (hg : cache_get c "lt" [u, env.message_hash msg] = Option.none ∨
      cache_get c "lt" [u, env.message_hash msg] = Option.some []) :
    resolveLongTerm env config (Option.some c) u msg
      = (env.get_relevant_history u msg config.long_term_max_items,
         Option.some (cache_set c "lt" [u, env.message_hash msg]
           (env.get_relevant_history u msg config.long_term_max_items)),
         [PEvt.searchLT u msg config.long_term_max_items,
          PEvt.cacheWrite (cache_key "lt" [u, env.message_hash msg])
            (env.get_relevant_history u msg config.long_term_max_items)]) := by
  rcases hg with hg | hg <;> simp [resolveLongTerm, hh, hg]

/-- Auxiliary: splitting `searchCount` across concatenation. -/
theorem searchCount_append (a b : List PEvt) :
    searchCount (a ++ b) = searchCount a + searchCount b := by
  simp [searchCount, List.countP_append]

/-- Auxiliary: the procedures resolution step never invokes the long-term
search. -/
theorem searchCount_resolveProcedures (env : PipelineEnv) (config : ContextConfig)
    (cache : Option CacheState) (u : String) :
    searchCount (resolveProcedures env config cache u).2.2 = 0 := by
  simp only [resolveProcedures]
  repeat' split
  all_goals simp [searchCount]

/-- Auxiliary: the long-term resolution step invokes the search at most
once. -/
theorem searchCount_resolveLongTerm_le_one (env : PipelineEnv)
    (config : ContextConfig) (cache : Option CacheState) (u msg : String) :
    searchCount (resolveLongTerm env config cache u msg).2.2 ≤ 1 := by
  simp only [resolveLongTerm]
  repeat' split
  all_goals simp [searchCount]

/-- Auxiliary: the cache state and trace of a build call are those of its
two resolution steps. -/
theorem build_snd (env : PipelineEnv) (config : ContextConfig)
    (cache : Option CacheState) (u s msg : String) :
    (ContextPipeline.build env config cache u s msg).2
      = ((resolveProcedures env config
            (resolveLongTerm env config cache u msg).2.1 u).2.1,
         (resolveLongTerm env config cache u msg).2.2
           ++ (resolveProcedures env config
                (resolveLongTerm env config cache u msg).2.1 u).2.2) := by
  simp only [ContextPipeline.build]
  rw [apply_ite (fun r : BuildResult × Option CacheState × List PEvt => r.2)]
  simp only []
  rw [ite_self]

/-- Auxiliary: a whole build call invokes the long-term search at most
once. -/
theorem searchCount_build_le_one (env : PipelineEnv) (config : ContextConfig)
    (cache : Option CacheState) (u s msg : String) :
    searchCount (ContextPipeline.build env config cache u s msg).2.2 ≤ 1 := by
  have h := build_snd env config cache u s msg
  have h2 : (ContextPipeline.build env config cache u s msg).2.2
      = (resolveLongTerm env config cache u msg).2.2
        ++ (resolveProcedures env config
             (resolveLongTerm env config cache u msg).2.1 u).2.2 := by
    rw [h]
  rw [h2, searchCount_append, searchCount_resolveProcedures]
  simpa using searchCount_resolveLongTerm_le_one env config cache u msg

/-- Auxiliary: the procedures resolution step on a present cache keeps the
cache present and leaves every long-term key unchanged. -/
theorem resolveProcedures_preserves_lt (env : PipelineEnv) (config : ContextConfig)
    (c : CacheState) (u : String) :
    ∃ c', (resolveProcedures env config (Option.some c) u).2.1 = Option.some c'
      ∧ ∀ (u2 h2 : String),
          cache_get c' "lt" [u2, h2] = cache_get c "lt" [u2, h2] := by
  simp only [resolveProcedures]
  cases hg : cache_get c "proc" [u] with
  | none =>
      by_cases hok : env.list_procedures_ok
      · by_cases hps : (env.list_procedures u config.procedure_max_items).isEmpty
        · refine ⟨c, ?_, fun u2 h2 => rfl⟩
          simp [hg, hok, hps]
        · refine ⟨cache_set c "proc" [u]
            (env.list_procedures u config.procedure_max_items), ?_, ?_⟩
          · simp [hg, hok, hps]
          · intro u2 h2
            exact cache_get_cache_set_ne c "proc" "lt" [u] [u2, h2] _
              (cache_key_lt_ne_proc u2 h2 u)
      · refine ⟨c, ?_, fun u2 h2 => rfl⟩
        simp [hg, hok]
  | some v =>
      by_cases hv : v.isEmpty
      · by_cases hok : env.list_procedures_ok
        · by_cases hps : (env.list_procedures u config.procedure_max_items).isEmpty
          · refine ⟨c, ?_, fun u2 h2 => rfl⟩
            simp [hg, hv, hok, hps]
          · refine ⟨cache_set c "proc" [u]
              (env.list_procedures u config.procedure_max_items), ?_, ?_⟩
            · simp [hg, hv, hok, hps]
            · intro u2 h2
              exact cache_get_cache_set_ne c "proc" "lt" [u] [u2, h2] _
                (cache_key_lt_ne_proc u2 h2 u)
        · refine ⟨c, ?_, fun u2 h2 => rfl⟩
          simp [hg, hv, hok]
      · refine ⟨c, ?_, fun u2 h2 => rfl⟩
        simp [hg, hv]

/-- Auxiliary: when the procedure fetch returns an empty list, the
procedures resolution step performs no cache write at all. -/
theorem resolveProcedures_no_write_of_empty (env : PipelineEnv)
    (config : ContextConfig) (cache : Option CacheState) (u : String)
    (hp : env.list_procedures u config.procedure_max_items = [])
    (k : String) (v : List PyDict) :
    PEvt.cacheWrite k v ∉ (resolveProcedures env config cache u).2.2 := by
  simp only [resolveProcedures, hp]
  repeat' split
  all_goals simp_all

/-- Auxiliary: a build call starting from a long-term cache miss (or cached
empty value) — the first call's trace, cache, and the second call's trace. -/
theorem c4_miss_core (env : PipelineEnv) (config : ContextConfig)
    (c0 : CacheState) (u s1 s2 msg : String)
    (hh : env.message_hash msg ≠ "")
    (hf : env.get_relevant_history u msg config.long_term_max_items ≠ [])
    (hg : cache_get c0 "lt" [u, env.message_hash msg] = Option.none ∨
      cache_get c0 "lt" [u, env.message_hash msg] = Option.some []) :
    searchCount (ContextPipeline.build env config (Option.some c0) u s1 msg).2.2 = 1
    ∧ searchCount (ContextPipeline.build env config
        (ContextPipeline.build env config (Option.some c0) u s1 msg).2.1 u s2 msg).2.2
      = 0
    ∧ hasCacheWrite (ContextPipeline.build env config (Option.some c0) u s1 msg).2.2
        (cache_key "lt" [u, env.message_hash msg])
        (env.get_relevant_history u msg config.long_term_max_items) := by
  have hr1 := resolveLongTerm_miss env config c0 u msg hh hg
  have hb1 := build_snd env config (Option.some c0) u s1 msg
  have h221 : (ContextPipeline.build env config (Option.some c0) u s1 msg).2.2
      = [PEvt.searchLT u msg config.long_term_max_items,
         PEvt.cacheWrite (cache_key "lt" [u, env.message_hash msg])
           (env.get_relevant_history u msg config.long_term_max_items)]
        ++ (resolveProcedures env config
             (Option.some (cache_set c0 "lt" [u, env.message_hash msg]
               (env.get_relevant_history u msg config.long_term_max_items))) u).2.2 := by
    have := congrArg Prod.snd hb1
    simp only [hr1] at this
    exact this
  have h211 : (ContextPipeline.build env config (Option.some c0) u s1 msg).2.1
      = (resolveProcedures env config
          (Option.some (cache_set c0 "lt" [u, env.message_hash msg]
            (env.get_relevant_history u msg config.long_term_max_items))) u).2.1 := by
    have := congrArg Prod.fst hb1
    simp only [hr1] at this
    exact this
  obtain ⟨c1, hc1, hpres⟩ := resolveProcedures_preserves_lt env config
    (cache_set c0 "lt" [u, env.message_hash msg]
      (env.get_relevant_history u msg config.long_term_max_items)) u
  have hg2 : cache_get c1 "lt" [u, env.message_hash msg]
      = Option.some (env.get_relevant_history u msg config.long_term_max_items) := by
    rw [hpres u (env.message_hash msg), cache_get_cache_set_self]
  have hr2 := resolveLongTerm_hit env config c1 u msg
    (env.get_relevant_history u msg config.long_term_max_items) hh hg2 hf
  have hcache1 : (ContextPipeline.build env config (Option.some c0) u s1 msg).2.1
      = Option.some c1 := by rw [h211, hc1]
  refine ⟨?_, ?_, ?_⟩
  · rw [h221, searchCount_append, searchCount_resolveProcedures]
    rfl
  · rw [hcache1]
    have hb2 := congrArg Prod.snd (build_snd env config (Option.some c1) u s2 msg)
    simp only [hr2] at hb2
    rw [hb2]
    simp only [List.nil_append]
    exact searchCount_resolveProcedures env config (Option.some c1) u
  · rw [h221]
    unfold hasCacheWrite
    exact List.mem_append_left _ (List.mem_cons_of_mem _ (List.mem_cons_self _ _))

/-- C4 (amended): two sequential `build` calls with the same `user_id` and
`message` within the TTL window on a working cache invoke the long-term
search at most once, provided the search result is non-empty; the count of
one call never exceeds one. -/
theorem c4_cache_single_search (env : PipelineEnv) (config : ContextConfig)
    (c0 : CacheState) (u s1 s2 msg : String)
    (hh : env.message_hash msg ≠ "")
    (hf : env.get_relevant_history u msg config.long_term_max_items ≠ []) :
    searchCount (ContextPipeline.build env config (Option.some c0) u s1 msg).2.2
      + searchCount (ContextPipeline.build env config
          (ContextPipeline.build env config (Option.some c0) u s1 msg).2.1 u s2 msg).2.2
      ≤ 1 := by
  cases hg : cache_get c0 "lt" [u, env.message_hash msg] with
  | none =>
      obtain ⟨h1, h2, _⟩ := c4_miss_core env config c0 u s1 s2 msg hh hf (Or.inl hg)
      omega
  | some v =>
      by_cases hv : v = []
      · subst hv
        obtain ⟨h1, h2, _⟩ := c4_miss_core env config c0 u s1 s2 msg hh hf (Or.inr hg)
        omega
      · have hr1 := resolveLongTerm_hit env config c0 u msg v hh hg hv
        have hb1 := build_snd env config (Option.some c0) u s1 msg
        have h221 : (ContextPipeline.build env config (Option.some c0) u s1 msg).2.2
            = [] ++ (resolveProcedures env config (Option.some c0) u).2.2 := by
          have := congrArg Prod.snd hb1
          simp only [hr1] at this
          exact this
        have h1 : searchCount
            (ContextPipeline.build env config (Option.some c0) u s1 msg).2.2 = 0 := by
          rw [h221, List.nil_append]
          exact searchCount_resolveProcedures env config (Option.some c0) u
        have h2 := searchCount_build_le_one env config
          (ContextPipeline.build env config (Option.some c0) u s1 msg).2.1 u s2 msg
        omega

/-- Counterexample to C4 as stated: with a working (initially empty) cache
and a search that returns an empty list, two identical build calls invoke
the long-term search twice — the cached empty value does not stop the
second fetch. -/
theorem c4_counterexample :
    ¬ (searchCount (ContextPipeline.build c34missEnv {} (Option.some ⟨[]⟩)
          "u" "s" "hello").2.2
        + searchCount (ContextPipeline.build c34missEnv {}
            (ContextPipeline.build c34missEnv {} (Option.some ⟨[]⟩)
              "u" "s" "hello").2.1 "u" "s" "hello").2.2
      ≤ 1) := by decide

/-- Witness for C4 (amended) at a search returning one item. -/
theorem c4_cache_single_search_witness :
    c34hitEnv.message_hash "hello" ≠ ""
    ∧ c34hitEnv.get_relevant_history "u" "hello"
        ({} : ContextConfig).long_term_max_items ≠ []
    ∧ searchCount (ContextPipeline.build c34hitEnv {} (Option.some ⟨[]⟩)
          "u" "s" "hello").2.2
        + searchCount (ContextPipeline.build c34hitEnv {}
            (ContextPipeline.build c34hitEnv {} (Option.some ⟨[]⟩)
              "u" "s" "hello").2.1 "u" "s" "hello").2.2
      ≤ 1 :=
  ⟨by decide, by simp [c34hitEnv],
   c4_cache_single_search c34hitEnv {} ⟨[]⟩ "u" "s" "s" "hello"
     (by decide) (by simp [c34hitEnv])⟩

/-- Counterexample to C3 as stated: a long-term fetch that returns an empty
list still performs the cache write under the `("lt", user, fingerprint)`
key. -/
theorem c3_counterexample :
    hasCacheWrite (ContextPipeline.build c34missEnv {} (Option.some ⟨[]⟩)
        "u" "s" "hello").2.2
      (cache_key "lt" ["u", "h"]) [] := by
  have h : (ContextPipeline.build c34missEnv {} (Option.some ⟨[]⟩)
        "u" "s" "hello").2.2
      = [PEvt.searchLT "u" "hello" 5,
         PEvt.cacheWrite (cache_key "lt" ["u", "h"]) [],
         PEvt.listProc "u" 10] := rfl
  unfold hasCacheWrite
  rw [h]
  exact List.mem_cons_of_mem _ (List.mem_cons_self _ _)

/-- C3 (amended): on a long-term cache miss (or cached empty value), the
fetched long-term result is written to the cache unconditionally — even
when it is empty — while the procedures cache write is skipped when the
procedure fetch returns an empty list. -/
theorem c3_lt_cache_write_unconditional (env : PipelineEnv)
    (config : ContextConfig) (c0 : CacheState) (u s msg : String)
    (hh : env.message_hash msg ≠ "")
    (hg : cache_get c0 "lt" [u, env.message_hash msg] = Option.none ∨
      cache_get c0 "lt" [u, env.message_hash msg] = Option.some [])
    (hp : env.list_procedures u config.procedure_max_items = []) :
    hasCacheWrite (ContextPipeline.build env config (Option.some c0) u s msg).2.2
      (cache_key "lt" [u, env.message_hash msg])
      (env.get_relevant_history u msg config.long_term_max_items)
    ∧ ∀ v, ¬ hasCacheWrite
        (ContextPipeline.build env config (Option.some c0) u s msg).2.2
        (cache_key "proc" [u]) v := by
  have hr1 := resolveLongTerm_miss env config c0 u msg hh hg
  have h221 : (ContextPipeline.build env config (Option.some c0) u s msg).2.2
      = [PEvt.searchLT u msg config.long_term_max_items,
         PEvt.cacheWrite (cache_key "lt" [u, env.message_hash msg])
           (env.get_relevant_history u msg config.long_term_max_items)]
        ++ (resolveProcedures env config
             (Option.some (cache_set c0 "lt" [u, env.message_hash msg]
               (env.get_relevant_history u msg config.long_term_max_items))) u).2.2 := by
    have := congrArg Prod.snd (build_snd env config (Option.some c0) u s msg)
    simp only [hr1] at this
    exact this
  constructor
  · unfold hasCacheWrite
    rw [h221]
    exact List.mem_append_left _ (List.mem_cons_of_mem _ (List.mem_cons_self _ _))
  · intro v hmem
    unfold hasCacheWrite at hmem
    rw [h221] at hmem
    rcases List.mem_append.mp hmem with hmem | hmem
    · rcases List.mem_cons.mp hmem with hmem | hmem
      · exact PEvt.noConfusion hmem
      · rcases List.mem_cons.mp hmem with hmem | hmem
        · have hkeys := (PEvt.cacheWrite.injEq _ _ _ _).mp hmem
          exact cache_key_lt_ne_proc u (env.message_hash msg) u hkeys.1.symm
        · exact absurd hmem (List.not_mem_nil _)
    · exact resolveProcedures_no_write_of_empty env config _ u hp _ v hmem

/-- Witness for C3 (amended): the empty-search environment with an empty
cache — the empty fetch result is cached under the lt key and no procedure
cache write occurs. -/
theorem c3_lt_cache_write_unconditional_witness :
    c34missEnv.message_hash "hello" ≠ ""
    ∧ cache_get ⟨[]⟩ "lt" ["u", c34missEnv.message_hash "hello"] = Option.none
    ∧ c34missEnv.list_procedures "u" ({} : ContextConfig).procedure_max_items = []
    ∧ hasCacheWrite (ContextPipeline.build c34missEnv {} (Option.some ⟨[]⟩)
        "u" "s" "hello").2.2
        (cache_key "lt" ["u", c34missEnv.message_hash "hello"])
        (c34missEnv.get_relevant_history "u" "hello"
          ({} : ContextConfig).long_term_max_items) :=
  ⟨by decide, rfl, rfl,
   (c3_lt_cache_write_unconditional c34missEnv {} ⟨[]⟩ "u" "s" "hello"
     (by decide) (Or.inl rfl) rfl).1⟩
